import Mathlib

/-! # SkyScope ADS-B tracker: the build-time configuration (`config.h`)


A shallow embedding of the configuration header of the tracker.  Every
object-like macro the properties below speak about becomes a Lean constant of
the same name, with the value the header gives it; integer literals are C
`int` literals and are embedded as `Int`.  The one piece of control flow in
the header, the `#if / #elif / #else` chain that selects the receiver-specific
settings from `RECEIVER_TYPE`, becomes a function of the receiver type.
-/

namespace SkyScope

/-! ## Message processing configuration -/

/-- Buffer size: `#define MAX_MESSAGE_LENGTH 50`. -/
def MAX_MESSAGE_LENGTH : Int := 50

/-- Buffer size: `#define MAX_AIRCRAFT 10`. -/
def MAX_AIRCRAFT : Int := 10

/-- Timeout in milliseconds: `#define AIRCRAFT_TIMEOUT 30000`. -/
def AIRCRAFT_TIMEOUT : Int := 30000

/-! ## Mode-S message type codes -/

/-- Type code: `#define MSG_TYPE_POSITION 4`. -/
def MSG_TYPE_POSITION : Int := 4

/-- Type code: `#define MSG_TYPE_IDENTITY 5`. -/
def MSG_TYPE_IDENTITY : Int := 5

/-- Type code: `#define MSG_TYPE_VELOCITY 6`. -/
def MSG_TYPE_VELOCITY : Int := 6

/-- Type code: `#define MSG_TYPE_ALTITUDE 9`. -/
def MSG_TYPE_ALTITUDE : Int := 9

/-- Type code: `#define MSG_TYPE_SURFACE_POSITION 20`. -/
def MSG_TYPE_SURFACE_POSITION : Int := 20

/-- Type code: `#define MSG_TYPE_AIRBORNE_POSITION 21`. -/
def MSG_TYPE_AIRBORNE_POSITION : Int := 21

/-- Type code: `#define MSG_TYPE_AIRBORNE_VELOCITY 22`. -/
def MSG_TYPE_AIRBORNE_VELOCITY : Int := 22

/-! ## Display configuration -/

/-- Display layout: `#define MAX_DISPLAY_AIRCRAFT 3`. -/
def MAX_DISPLAY_AIRCRAFT : Int := 3

/-! ## Receiver-specific settings -/

/-- Receiver module: `#define RECEIVER_GENERIC 0`. -/
def RECEIVER_GENERIC : Int := 0

/-- Receiver module: `#define RECEIVER_RADARBOX 1`. -/
def RECEIVER_RADARBOX : Int := 1

/-- Receiver module: `#define RECEIVER_STRATUX 2`. -/
def RECEIVER_STRATUX : Int := 2

/-- Receiver module: `#define RECEIVER_DIY_1090 3`. -/
def RECEIVER_DIY_1090 : Int := 3

/-- Selected receiver: `#define RECEIVER_TYPE RECEIVER_GENERIC`. -/
def RECEIVER_TYPE : Int := RECEIVER_GENERIC

/-- The `MESSAGE_PREFIX` macro as the `#if RECEIVER_TYPE == ... #elif ... #else`
chain defines it, as a function of the value of `RECEIVER_TYPE`. The build's
own prefix is `MESSAGE_PREFIX RECEIVER_TYPE`. -/
def MESSAGE_PREFIX (receiverType : Int) : String :=
  if receiverType = RECEIVER_RADARBOX then "8D"
  else if receiverType = RECEIVER_STRATUX then "8D"
  else if receiverType = RECEIVER_DIY_1090 then "8D"
  else "8D"

/-! ## Advanced settings -/

/-- Altitude calculation parameter: `#define ALTITUDE_OFFSET -1000`. -/
def ALTITUDE_OFFSET : Int := -1000

/-- Altitude calculation parameter: `#define ALTITUDE_MULTIPLIER 25`. -/
def ALTITUDE_MULTIPLIER : Int := 25

/-- Message validation: `#define MIN_MESSAGE_LENGTH 14`. -/
def MIN_MESSAGE_LENGTH : Int := 14

/-- Message validation: `#define MAX_MESSAGE_LENGTH_HEX 50`. -/
def MAX_MESSAGE_LENGTH_HEX : Int := 50

/-! ## Hexadecimal reading of characters

The header gives the prefix as a string literal; the properties about it speak
of hexadecimal digits and of the byte two such digits spell.  These are the
usual ASCII conventions (`0`-`9`, `A`-`F`, `a`-`f`), most significant digit
first. -/

/-- Value of an ASCII hexadecimal digit, `none` for any other character. -/
def hexDigitValue (c : Char) : Option Nat :=
  let n := c.toNat
  if 48 ≤ n ∧ n ≤ 57 then some (n - 48)
  else if 65 ≤ n ∧ n ≤ 70 then some (n - 55)
  else if 97 ≤ n ∧ n ≤ 102 then some (n - 87)
  else none

/-- A character is a hexadecimal digit when it has a hexadecimal value. -/
def isHexDigit (c : Char) : Bool := (hexDigitValue c).isSome

/-- The byte spelled by a string of exactly two hexadecimal digits. -/
def hexByte (s : String) : Option Nat :=
  match s.toList with
  | [hi, lo] =>
    match hexDigitValue hi, hexDigitValue lo with
    | some h, some l => some (16 * h + l)
    | _, _ => none
  | _ => none

/-! ## Altitude constants -/

/-- C1: with the configured constants the multiplier is 25, the offset is
-1000, and for every integer raw altitude field value `V` the transform
`V * ALTITUDE_MULTIPLIER + ALTITUDE_OFFSET` equals `V * 25 - 1000`. -/
theorem altitude_transform_configured :
    ALTITUDE_MULTIPLIER = 25 ∧ ALTITUDE_OFFSET = -1000 ∧
      ∀ V : Int, V * ALTITUDE_MULTIPLIER + ALTITUDE_OFFSET = V * 25 - 1000 := by
  refine ⟨rfl, rfl, fun V => ?_⟩
  simp only [ALTITUDE_MULTIPLIER, ALTITUDE_OFFSET]
  omega

/-- C2: the configured altitude transform is invertible. It is injective on
the integers, and the C (truncating) integer division
`(altitude - ALTITUDE_OFFSET) / ALTITUDE_MULTIPLIER` applied to
`altitude = V * ALTITUDE_MULTIPLIER + ALTITUDE_OFFSET` gives back `V` exactly,
for every integer `V`. -/
theorem altitude_transform_invertible :
    (∀ a b : Int,
        a * ALTITUDE_MULTIPLIER + ALTITUDE_OFFSET
          = b * ALTITUDE_MULTIPLIER + ALTITUDE_OFFSET → a = b) ∧
      ∀ V : Int,
        Int.tdiv ((V * ALTITUDE_MULTIPLIER + ALTITUDE_OFFSET) - ALTITUDE_OFFSET)
          ALTITUDE_MULTIPLIER = V := by
  refine ⟨fun a b h => ?_, fun V => ?_⟩
  · simp only [ALTITUDE_MULTIPLIER, ALTITUDE_OFFSET] at h
    omega
  · have h : (V * ALTITUDE_MULTIPLIER + ALTITUDE_OFFSET) - ALTITUDE_OFFSET
        = V * ALTITUDE_MULTIPLIER := by omega
    rw [h]
    exact Int.mul_tdiv_cancel V (by decide)

/-- Witness for C2: raw values 7 and 7 have equal transforms (both 7*25 - 1000
= -825), and the injectivity part returns their equality. -/
theorem altitude_transform_invertible_witness :
    (7 : Int) * ALTITUDE_MULTIPLIER + ALTITUDE_OFFSET
        = 7 * ALTITUDE_MULTIPLIER + ALTITUDE_OFFSET ∧ (7 : Int) = 7 :=
  ⟨rfl, altitude_transform_invertible.1 7 7 rfl⟩

/-! ## Registry capacity and staleness -/

/-- C3: the registry capacity is 10 and the aircraft timeout is 30 seconds
expressed in milliseconds; under the test "age exceeds AIRCRAFT_TIMEOUT" an age
of 40000 ms is stale, and no age of 30000 ms or less is. -/
theorem registry_capacity_and_timeout :
    MAX_AIRCRAFT = 10 ∧ AIRCRAFT_TIMEOUT = 30 * 1000 ∧
      (40000 : Int) > AIRCRAFT_TIMEOUT ∧
      ∀ age : Int, age ≤ 30000 → ¬ (age > AIRCRAFT_TIMEOUT) := by
  refine ⟨rfl, rfl, by decide, fun age h => ?_⟩
  simp only [AIRCRAFT_TIMEOUT]
  omega

/-- Witness for C3: an age of exactly 30000 ms is within the bound and is not
stale. -/
theorem registry_capacity_and_timeout_witness :
    (30000 : Int) ≤ 30000 ∧ ¬ ((30000 : Int) > AIRCRAFT_TIMEOUT) :=
  ⟨by decide, registry_capacity_and_timeout.2.2.2 30000 (by decide)⟩

/-! ## Type codes -/

/-- C4: the seven configured type codes are pairwise distinct, the four
categories position = (POSITION, SURFACE_POSITION, AIRBORNE_POSITION),
identity = (IDENTITY), velocity = (VELOCITY, AIRBORNE_VELOCITY),
altitude = (ALTITUDE) are pairwise disjoint, so no value belongs to two of
them, and every configured code fits the 5-bit field, between 0 and 31. -/
theorem type_codes_unambiguous :
    [MSG_TYPE_POSITION, MSG_TYPE_IDENTITY, MSG_TYPE_VELOCITY, MSG_TYPE_ALTITUDE,
        MSG_TYPE_SURFACE_POSITION, MSG_TYPE_AIRBORNE_POSITION,
        MSG_TYPE_AIRBORNE_VELOCITY].Nodup ∧
      List.Pairwise List.Disjoint
        [[MSG_TYPE_POSITION, MSG_TYPE_SURFACE_POSITION, MSG_TYPE_AIRBORNE_POSITION],
         [MSG_TYPE_IDENTITY],
         [MSG_TYPE_VELOCITY, MSG_TYPE_AIRBORNE_VELOCITY],
         [MSG_TYPE_ALTITUDE]] ∧
      ∀ code ∈
        [MSG_TYPE_POSITION, MSG_TYPE_IDENTITY, MSG_TYPE_VELOCITY, MSG_TYPE_ALTITUDE,
          MSG_TYPE_SURFACE_POSITION, MSG_TYPE_AIRBORNE_POSITION,
          MSG_TYPE_AIRBORNE_VELOCITY], 0 ≤ code ∧ code ≤ 31 := by
  refine ⟨by decide, ?_, by decide⟩
  simp [List.Disjoint, MSG_TYPE_POSITION, MSG_TYPE_IDENTITY, MSG_TYPE_VELOCITY,
    MSG_TYPE_ALTITUDE, MSG_TYPE_SURFACE_POSITION, MSG_TYPE_AIRBORNE_POSITION,
    MSG_TYPE_AIRBORNE_VELOCITY]

/-- Witness for C4: the largest configured code, MSG_TYPE_AIRBORNE_VELOCITY, is
one of the seven and fits the 5-bit field. -/
theorem type_codes_unambiguous_witness :
    MSG_TYPE_AIRBORNE_VELOCITY ∈
        [MSG_TYPE_POSITION, MSG_TYPE_IDENTITY, MSG_TYPE_VELOCITY, MSG_TYPE_ALTITUDE,
          MSG_TYPE_SURFACE_POSITION, MSG_TYPE_AIRBORNE_POSITION,
          MSG_TYPE_AIRBORNE_VELOCITY] ∧
      0 ≤ MSG_TYPE_AIRBORNE_VELOCITY ∧ MSG_TYPE_AIRBORNE_VELOCITY ≤ 31 :=
  ⟨by decide, type_codes_unambiguous.2.2 MSG_TYPE_AIRBORNE_VELOCITY (by decide)⟩

/-- C5, as stated, fails: it is not the case that all three position codes lie
in the range from MSG_TYPE_SURFACE_POSITION to MSG_TYPE_AIRBORNE_POSITION (and
that none of the identity, velocity and altitude codes does), because
MSG_TYPE_POSITION is 4 and the range is 20 to 21. -/
theorem position_codes_not_all_in_range :
    ¬ ((∀ code ∈ [MSG_TYPE_POSITION, MSG_TYPE_SURFACE_POSITION,
            MSG_TYPE_AIRBORNE_POSITION],
          MSG_TYPE_SURFACE_POSITION ≤ code ∧ code ≤ MSG_TYPE_AIRBORNE_POSITION) ∧
        (∀ code ∈ [MSG_TYPE_IDENTITY, MSG_TYPE_VELOCITY, MSG_TYPE_AIRBORNE_VELOCITY,
            MSG_TYPE_ALTITUDE],
          ¬ (MSG_TYPE_SURFACE_POSITION ≤ code ∧ code ≤ MSG_TYPE_AIRBORNE_POSITION))) := by
  rintro ⟨h, -⟩
  exact absurd (h MSG_TYPE_POSITION (by decide)).1 (by decide)

/-- C5, amended: the surface and airborne position codes lie in the range from
MSG_TYPE_SURFACE_POSITION to MSG_TYPE_AIRBORNE_POSITION, MSG_TYPE_POSITION lies
below that range, and none of the identity, velocity and altitude codes lies in
it. -/
theorem position_range_codes :
    (∀ code ∈ [MSG_TYPE_SURFACE_POSITION, MSG_TYPE_AIRBORNE_POSITION],
        MSG_TYPE_SURFACE_POSITION ≤ code ∧ code ≤ MSG_TYPE_AIRBORNE_POSITION) ∧
      MSG_TYPE_POSITION < MSG_TYPE_SURFACE_POSITION ∧
      (∀ code ∈ [MSG_TYPE_IDENTITY, MSG_TYPE_VELOCITY, MSG_TYPE_AIRBORNE_VELOCITY,
          MSG_TYPE_ALTITUDE],
        ¬ (MSG_TYPE_SURFACE_POSITION ≤ code ∧ code ≤ MSG_TYPE_AIRBORNE_POSITION)) := by
  decide

/-- Witness for C5 amended: MSG_TYPE_AIRBORNE_VELOCITY, the code right above the
range, is among the non-position codes and is outside the range. -/
theorem position_range_codes_witness :
    MSG_TYPE_AIRBORNE_VELOCITY ∈ [MSG_TYPE_IDENTITY, MSG_TYPE_VELOCITY,
        MSG_TYPE_AIRBORNE_VELOCITY, MSG_TYPE_ALTITUDE] ∧
      ¬ (MSG_TYPE_SURFACE_POSITION ≤ MSG_TYPE_AIRBORNE_VELOCITY ∧
          MSG_TYPE_AIRBORNE_VELOCITY ≤ MSG_TYPE_AIRBORNE_POSITION) :=
  ⟨by decide, position_range_codes.2.2 MSG_TYPE_AIRBORNE_VELOCITY (by decide)⟩

/-! ## Message prefix -/

/-- C6: whatever the value of RECEIVER_TYPE, the message prefix is the string
"8D"; it has exactly two characters, both are hexadecimal digits, and so in
any frame that starts with the prefix the leading characters the prefix covers
are hexadecimal digits. -/
theorem message_prefix_is_8D (receiverType : Int) :
    MESSAGE_PREFIX receiverType = "8D" ∧
      (MESSAGE_PREFIX receiverType).length = 2 ∧
      (∀ c ∈ (MESSAGE_PREFIX receiverType).toList, isHexDigit c = true) ∧
      ∀ frame : List Char, (MESSAGE_PREFIX receiverType).toList <+: frame →
        ∀ c ∈ frame.take (MESSAGE_PREFIX receiverType).length, isHexDigit c = true := by
  have h : MESSAGE_PREFIX receiverType = "8D" := by
    unfold MESSAGE_PREFIX
    split_ifs <;> rfl
  have hhex : ∀ c ∈ ("8D" : String).toList, isHexDigit c = true := by decide
  rw [h]
  refine ⟨rfl, rfl, hhex, ?_⟩
  rintro frame ⟨rest, rfl⟩ c hc
  have hlen : ("8D" : String).length = ("8D" : String).toList.length := rfl
  rw [hlen, List.take_left] at hc
  exact hhex c hc

/-- Witness for C6: with the Stratux receiver selected, the frame
8D4840D6202CC371C32CE0576098 starts with the prefix and its first character
is a hexadecimal digit. -/
theorem message_prefix_is_8D_witness :
    (MESSAGE_PREFIX RECEIVER_STRATUX).toList <+: "8D4840D6202CC371C32CE0576098".toList ∧
      isHexDigit '8' = true :=
  ⟨⟨"4840D6202CC371C32CE0576098".toList, rfl⟩,
    (message_prefix_is_8D RECEIVER_STRATUX).2.2.2 "8D4840D6202CC371C32CE0576098".toList
      ⟨"4840D6202CC371C32CE0576098".toList, rfl⟩ '8' (by decide)⟩

/-- C9: the two characters of the configured message prefix, read as one
hexadecimal byte, give 141 (0x8D); its top five bits, 141 / 8, are 17 and its
low three bits, 141 % 8, are 5. -/
theorem message_prefix_downlink_format :
    ∃ b : Nat, hexByte (MESSAGE_PREFIX RECEIVER_TYPE) = some b ∧
      b = 141 ∧ b / 8 = 17 ∧ b % 8 = 5 :=
  ⟨141, by decide, rfl, by decide, by decide⟩

/-! ## Frame length bounds -/

/-- C7: the minimum frame length is 14, it does not exceed the maximum valid
frame length, and the 28 characters that hex-encode a 14-byte message lie
between the two and within the accumulation bound MAX_MESSAGE_LENGTH. -/
theorem frame_length_bounds_consistent :
    MIN_MESSAGE_LENGTH = 14 ∧ MIN_MESSAGE_LENGTH ≤ MAX_MESSAGE_LENGTH_HEX ∧
      (MIN_MESSAGE_LENGTH ≤ 2 * 14 ∧ 2 * 14 ≤ MAX_MESSAGE_LENGTH_HEX) ∧
      2 * 14 ≤ MAX_MESSAGE_LENGTH := by
  decide

/-- C10: the accumulation bound and the maximum valid frame length are the same
number, so a length exceeds one exactly when it exceeds the other, and no
length between MIN_MESSAGE_LENGTH and MAX_MESSAGE_LENGTH_HEX exceeds the
accumulation bound. -/
theorem accumulation_bound_eq_max_frame_length :
    MAX_MESSAGE_LENGTH = MAX_MESSAGE_LENGTH_HEX ∧
      (∀ n : Int, n > MAX_MESSAGE_LENGTH_HEX ↔ n > MAX_MESSAGE_LENGTH) ∧
      ∀ n : Int, MIN_MESSAGE_LENGTH ≤ n → n ≤ MAX_MESSAGE_LENGTH_HEX →
        ¬ (n > MAX_MESSAGE_LENGTH) := by
  refine ⟨rfl, fun n => Iff.rfl, fun n _ h => ?_⟩
  simp only [MAX_MESSAGE_LENGTH_HEX] at h
  simp only [MAX_MESSAGE_LENGTH]
  omega

/-- Witness for C10: a frame of 28 characters is within the valid lengths and
does not exceed the accumulation bound. -/
theorem accumulation_bound_eq_max_frame_length_witness :
    MIN_MESSAGE_LENGTH ≤ 28 ∧ (28 : Int) ≤ MAX_MESSAGE_LENGTH_HEX ∧
      ¬ ((28 : Int) > MAX_MESSAGE_LENGTH) :=
  ⟨by decide, by decide,
    accumulation_bound_eq_max_frame_length.2.2 28 (by decide) (by decide)⟩

/-! ## Display capacity -/

/-- C8: the display capacity is positive and at most the registry capacity;
for every registry size `n` from 0 to MAX_AIRCRAFT a selection of
`min n MAX_DISPLAY_AIRCRAFT` records has at most MAX_DISPLAY_AIRCRAFT = 3
entries, and asks for no more than the registry holds or can hold. -/
theorem display_capacity_within_registry :
    0 < MAX_DISPLAY_AIRCRAFT ∧ MAX_DISPLAY_AIRCRAFT ≤ MAX_AIRCRAFT ∧
      MAX_DISPLAY_AIRCRAFT = 3 ∧
      ∀ n : Int, 0 ≤ n → n ≤ MAX_AIRCRAFT →
        min n MAX_DISPLAY_AIRCRAFT ≤ MAX_DISPLAY_AIRCRAFT ∧
          min n MAX_DISPLAY_AIRCRAFT ≤ n ∧
          min n MAX_DISPLAY_AIRCRAFT ≤ MAX_AIRCRAFT := by
  refine ⟨by decide, by decide, rfl, fun n _ hn => ⟨min_le_right _ _, min_le_left _ _, ?_⟩⟩
  exact le_trans (min_le_left _ _) hn

/-- Witness for C8: a full registry of 10 records yields a selection of at most
3 entries. -/
theorem display_capacity_within_registry_witness :
    (0 : Int) ≤ 10 ∧ (10 : Int) ≤ MAX_AIRCRAFT ∧
      min (10 : Int) MAX_DISPLAY_AIRCRAFT ≤ MAX_DISPLAY_AIRCRAFT :=
  ⟨by decide, by decide,
    (display_capacity_within_registry.2.2.2 10 (by decide) (by decide)).1⟩

end SkyScope
